import Mathlib

/-!
Shallow embedding of the tool-RPC core of the A2A multi-agent repository:
the store layer (db.py), the query catalog (db_tools.py), the stdio
JSON-RPC dispatcher (mcp_server.py) and the client read loop
(mcp_client.py).  SQL queries are embedded as list pipelines over an
explicit database state; SQLite ORDER BY is modelled by insertion sort on
the corresponding key, SELECT DISTINCT by List.dedup, and the default
ASCII-case-insensitive semantics of the SQLite LIKE operator by folding
both sides to lower case before substring search.
-/

/-- JSON values as produced by the json module: objects are ordered
association lists of string keys, numbers are modelled as integers
(every value sent by this program is integral). -/
inductive Json where
  | null : Json
  | bool : Bool → Json
  | num : Int → Json
  | str : String → Json
  | arr : List Json → Json
  | obj : List (String × Json) → Json

/-- Field access on a JSON object, first matching key wins (Python dict
keys are unique, so this matches dict.get). Non-objects have no fields. -/
def Json.getField : Json → String → Option Json
  | .obj fields, key => List.lookup key fields
  | _, _ => none

/-- Python truthiness of a JSON value, used for the expression
params = req.get with default, then "or" with the empty dict. -/
def Json.pyFalsy : Json → Bool
  | .null => true
  | .bool b => !b
  | .num n => n == 0
  | .str s => s == ""
  | .arr xs => xs.isEmpty
  | .obj fs => fs.isEmpty

/-- Customer row. Modelled from the spec: the column set of the customers
table (identifier, name, email, phone, status, creation timestamp,
last-update timestamp) comes from the data-model section, since the
schema bootstrap script (database_setup.py) is not among the sources;
timestamps are abstracted to naturals. -/
structure Customer where
  id : Int
  name : String
  email : String
  phone : String
  status : String
  created_at : Nat
  updated_at : Nat
deriving DecidableEq

/-- Ticket row. Modelled from the spec and the insert statement in
db.create_ticket: identifier, owning customer, issue text, status,
priority, creation timestamp. -/
structure Ticket where
  id : Int
  customer_id : Int
  issue : String
  status : String
  priority : String
  created_at : Nat
deriving DecidableEq

/-- The relational store: the two tables plus the next rowid the tickets
table will assign (SQLite lastrowid discipline). -/
structure DBState where
  customers : List Customer
  tickets : List Ticket
  nextTicketId : Int
deriving DecidableEq

/-- ORDER BY created_at DESC on customers. -/
def createdDesc (a b : Customer) : Prop := b.created_at ≤ a.created_at

instance : DecidableRel createdDesc :=
  fun a b => inferInstanceAs (Decidable (b.created_at ≤ a.created_at))

/-- ORDER BY c.id ascending on customers. -/
def idAsc (a b : Customer) : Prop := a.id ≤ b.id

instance : DecidableRel idAsc :=
  fun a b => inferInstanceAs (Decidable (a.id ≤ b.id))

instance : IsTotal Customer idAsc := ⟨fun a b => Int.le_total a.id b.id⟩

instance : IsTrans Customer idAsc := ⟨fun _ _ _ h1 h2 => le_trans h1 h2⟩

/-- ORDER BY created_at DESC on tickets. -/
def ticketCreatedDesc (a b : Ticket) : Prop := b.created_at ≤ a.created_at

instance : DecidableRel ticketCreatedDesc :=
  fun a b => inferInstanceAs (Decidable (b.created_at ≤ a.created_at))

/-- ORDER BY priority DESC, created_at DESC on tickets; priority compares
lexically as a plain string, exactly as SQLite compares a text column. -/
def priorityCreatedDesc (a b : Ticket) : Prop :=
  b.priority < a.priority ∨ (b.priority = a.priority ∧ b.created_at ≤ a.created_at)

instance : DecidableRel priorityCreatedDesc :=
  fun a b =>
    inferInstanceAs (Decidable
      (b.priority < a.priority ∨ (b.priority = a.priority ∧ b.created_at ≤ a.created_at)))

/-- SELECT * FROM customers WHERE id = ? with fetchone: the first
matching row or absence (db.get_customer). -/
def db_get_customer (customer_id : Int) (st : DBState) : Option Customer :=
  st.customers.find? (fun c => c.id == customer_id)

/-- Python truthiness of the optional status argument: None and the
empty string are both falsy. -/
def pyTruthyStr : Option String → Bool
  | none => false
  | some s => !(s == "")

/-- Embedding of db.list_customers: the status equality filter is applied
only when the status argument is truthy, then ORDER BY created_at DESC
LIMIT limit. -/
def db_list_customers (status : Option String) (limit : Nat) (st : DBState) : List Customer :=
  if pyTruthyStr status then
    (List.insertionSort createdDesc
      (st.customers.filter (fun c => some c.status == status))).take limit
  else
    (List.insertionSort createdDesc st.customers).take limit

/-- Whitelist of updatable customer columns (db.update_customer). -/
def valid_fields : List String := ["name", "email", "phone", "status"]

/-- One SET k = v assignment of the UPDATE statement, restricted to the
columns that can appear after the whitelist filter. -/
def setCustomerField (c : Customer) (kv : String × String) : Customer :=
  if kv.1 == "name" then { c with name := kv.2 }
  else if kv.1 == "email" then { c with email := kv.2 }
  else if kv.1 == "phone" then { c with phone := kv.2 }
  else if kv.1 == "status" then { c with status := kv.2 }
  else c

/-- Embedding of db.update_customer: filter the supplied mapping by the
whitelist; if nothing remains (including the empty-mapping early return)
re-read and return the current record with the store untouched; otherwise
run UPDATE customers SET fields, updated_at = CURRENT_TIMESTAMP
WHERE id = ? and re-read. The supplied mapping is an association list
with the unique keys of a Python dict. -/
def db_update_customer (customer_id : Int) (data : List (String × String)) (now : Nat)
    (st : DBState) : DBState × Option Customer :=
  if data.isEmpty then (st, db_get_customer customer_id st)
  else
    let updates := data.filter (fun kv => valid_fields.contains kv.1)
    if updates.isEmpty then (st, db_get_customer customer_id st)
    else
      let st' : DBState :=
        { st with
          customers := st.customers.map (fun c =>
            if c.id == customer_id then
              { updates.foldl setCustomerField c with updated_at := now }
            else c) }
      (st', db_get_customer customer_id st')

/-- Embedding of db.update_customer_email: delegate to db.update_customer
with a single-key mapping. -/
def db_update_customer_email (customer_id : Int) (new_email : String) (now : Nat)
    (st : DBState) : DBState × Option Customer :=
  db_update_customer customer_id [("email", new_email)] now st

/-- Embedding of db.create_ticket: INSERT stamping CURRENT_TIMESTAMP,
then the re-read by lastrowid, which returns the freshly inserted row. -/
def db_create_ticket (customer_id : Int) (issue : String) (priority : String) (status : String)
    (now : Nat) (st : DBState) : DBState × Ticket :=
  let t : Ticket :=
    { id := st.nextTicketId, customer_id := customer_id, issue := issue,
      status := status, priority := priority, created_at := now }
  ({ st with tickets := st.tickets ++ [t], nextTicketId := st.nextTicketId + 1 }, t)

/-- Embedding of db.get_customer_history: all tickets of the customer,
ORDER BY created_at DESC. -/
def db_get_customer_history (customer_id : Int) (st : DBState) : List Ticket :=
  List.insertionSort ticketCreatedDesc
    (st.tickets.filter (fun t => t.customer_id == customer_id))

/-- Embedding of db.list_open_tickets: tickets with status other than
resolved, ORDER BY priority DESC, created_at DESC. -/
def db_list_open_tickets (st : DBState) : List Ticket :=
  List.insertionSort priorityCreatedDesc
    (st.tickets.filter (fun t => !(t.status == "resolved")))

/-- Embedding of db.list_active_customers: status equals active,
ORDER BY created_at DESC. -/
def db_list_active_customers (st : DBState) : List Customer :=
  List.insertionSort createdDesc (st.customers.filter (fun c => c.status == "active"))

/-- Embedding of db.list_premium_customers: the store-layer placeholder
selects the single synthetic row WHERE id = 12345. -/
def db_list_premium_customers (st : DBState) : List Customer :=
  st.customers.filter (fun c => c.id == 12345)

/-- Inner join of customers and tickets on the given condition: for each
customer row in order, the matching ticket rows in order. -/
def innerJoin (cs : List Customer) (ts : List Ticket) (onCond : Customer → Ticket → Bool) :
    List (Customer × Ticket) :=
  cs.flatMap (fun c => (ts.filter (fun t => onCond c t)).map (fun t => (c, t)))

/-- Embedding of db.list_active_customers_with_open_tickets:
SELECT DISTINCT c.* FROM customers c JOIN tickets t ON c.id = t.customer_id
WHERE c.status = active AND t.status != resolved ORDER BY c.id. -/
def db_list_active_customers_with_open_tickets (st : DBState) : List Customer :=
  List.insertionSort idAsc
    ((((innerJoin st.customers st.tickets (fun c t => c.id == t.customer_id)).filter
        (fun p => p.1.status == "active" && !(p.2.status == "resolved"))).map Prod.fst).dedup)

/-- Substring test over character lists: the needle occurs at some
position of the haystack. -/
def containsSub (needle : List Char) : List Char → Bool
  | [] => needle.isPrefixOf ([] : List Char)
  | c :: rest => needle.isPrefixOf (c :: rest) || containsSub needle rest

/-- ASCII lower-casing of one character: the SQLite LIKE fold maps only
the upper-case ASCII letters A through Z to their lower-case forms. -/
def asciiLowerChar (c : Char) : Char :=
  if 65 ≤ c.toNat ∧ c.toNat ≤ 90 then Char.ofNat (c.toNat + 32) else c

/-- SQLite pattern col LIKE percent-pat-percent: by default LIKE compares
ASCII characters case-insensitively, so the match folds both the pattern
and the column value to lower case before the substring test. -/
def likeContains (pat : String) (s : String) : Bool :=
  containsSub (pat.data.map asciiLowerChar) (s.data.map asciiLowerChar)

/-- Case-sensitive substring occurrence, as the spec sentence for the
premium heuristic words it (the exact capitalization as stored). -/
def occursExact (needle s : String) : Bool := containsSub needle.data s.data

/-- Row set of db_tools.list_premium_customers:
SELECT * FROM customers WHERE name LIKE percent-Premium-percent
ORDER BY id LIMIT limit. -/
def db_tools_list_premium_rows (st : DBState) (limit : Nat) : List Customer :=
  (List.insertionSort idAsc
    (st.customers.filter (fun c => likeContains "Premium" c.name))).take limit

/-- Row set of db_tools.open_tickets_for_customer: non-resolved tickets of
one customer, ORDER BY priority DESC, created_at DESC. -/
def db_tools_open_tickets_rows (customer_id : Int) (st : DBState) : List Ticket :=
  List.insertionSort priorityCreatedDesc
    (st.tickets.filter (fun t => t.customer_id == customer_id && !(t.status == "resolved")))

/-- Keyword set of db_tools.billing_context_for_customer. -/
def billing_keywords : List String := ["billing", "charge", "payment", "invoice"]

/-- Row set of db_tools.billing_context_for_customer: tickets of the
customer whose issue is LIKE any keyword, ORDER BY created_at DESC. -/
def db_tools_billing_rows (customer_id : Int) (st : DBState) : List Ticket :=
  List.insertionSort ticketCreatedDesc
    (st.tickets.filter (fun t =>
      t.customer_id == customer_id && billing_keywords.any (fun kw => likeContains kw t.issue)))

/-- Row set of db_tools.high_priority_tickets_for_customers: non-resolved
high-priority tickets, restricted by customer_id IN ids only when the
supplied list is truthy (neither None nor empty), ORDER BY created_at
DESC. -/
def db_tools_high_priority_rows (customer_ids : Option (List Int)) (st : DBState) : List Ticket :=
  let base := st.tickets.filter (fun t => !(t.status == "resolved") && t.priority == "high")
  match customer_ids with
  | some ids =>
    if ids.isEmpty then List.insertionSort ticketCreatedDesc base
    else List.insertionSort ticketCreatedDesc (base.filter (fun t => ids.contains t.customer_id))
  | none => List.insertionSort ticketCreatedDesc base

/-- Row set of db_tools.list_active_customers_with_open_tickets:
SELECT DISTINCT c.* FROM customers c JOIN tickets t ON t.customer_id = c.id
WHERE c.status = active AND t.status != resolved ORDER BY c.id. -/
def db_tools_lacwot_rows (st : DBState) : List Customer :=
  List.insertionSort idAsc
    ((((innerJoin st.customers st.tickets (fun c t => t.customer_id == c.id)).filter
        (fun p => p.1.status == "active" && !(p.2.status == "resolved"))).map Prod.fst).dedup)

/-- JSON encoding of a customer row as produced by _row_to_dict. -/
def customerToJson (c : Customer) : Json :=
  .obj [("id", .num c.id), ("name", .str c.name), ("email", .str c.email),
        ("phone", .str c.phone), ("status", .str c.status),
        ("created_at", .num (c.created_at : Int)), ("updated_at", .num (c.updated_at : Int))]

/-- JSON encoding of a ticket row as produced by _row_to_dict. -/
def ticketToJson (t : Ticket) : Json :=
  .obj [("id", .num t.id), ("customer_id", .num t.customer_id), ("issue", .str t.issue),
        ("status", .str t.status), ("priority", .str t.priority),
        ("created_at", .num (t.created_at : Int))]

/-- Success half of the Result Envelope built by db_tools: the success
flag followed by the payload under the fixed key of the operation. -/
def okEnvelope (key : String) (payload : Json) : Json :=
  .obj [("success", .bool true), (key, payload)]

/-- Failure half of the Result Envelope built by db_tools. -/
def errEnvelope (msg : String) : Json :=
  .obj [("success", .bool false), ("error", .str msg)]

/-- Embedding of db_tools.get_customer: wrap the store lookup into the
envelope; an absent row becomes success false with a message and the
function never raises. -/
def db_tools_get_customer (customer_id : Int) (st : DBState) : Json :=
  match db_get_customer customer_id st with
  | none => errEnvelope ("Customer " ++ toString customer_id ++ " not found.")
  | some c => okEnvelope "customer" (customerToJson c)

/-- Embedding of db_tools.list_customers. -/
def db_tools_list_customers (status : Option String) (limit : Nat) (st : DBState) : Json :=
  okEnvelope "customers" (.arr ((db_list_customers status limit st).map customerToJson))

/-- Embedding of db_tools.list_active_customers: delegates to
db.list_customers with status active and the given limit. -/
def db_tools_list_active_customers (limit : Nat) (st : DBState) : Json :=
  okEnvelope "customers" (.arr ((db_list_customers (some "active") limit st).map customerToJson))

/-- Embedding of db_tools.list_premium_customers. -/
def db_tools_list_premium_customers (limit : Nat) (st : DBState) : Json :=
  okEnvelope "customers" (.arr ((db_tools_list_premium_rows st limit).map customerToJson))

/-- Embedding of db_tools.update_customer_email: wrap db.update_customer
on the single email key; a None record becomes success false. -/
def db_tools_update_customer_email (customer_id : Int) (new_email : String) (now : Nat)
    (st : DBState) : DBState × Json :=
  let res := db_update_customer customer_id [("email", new_email)] now st
  match res.2 with
  | none =>
    (res.1, errEnvelope ("Customer " ++ toString customer_id ++ " not found or update failed."))
  | some c => (res.1, okEnvelope "customer" (customerToJson c))

/-- Embedding of db_tools.create_ticket: wrap db.create_ticket into the
envelope under the key ticket. -/
def db_tools_create_ticket (customer_id : Int) (issue priority status : String) (now : Nat)
    (st : DBState) : DBState × Json :=
  let res := db_create_ticket customer_id issue priority status now st
  (res.1, okEnvelope "ticket" (ticketToJson res.2))

/-- Embedding of db_tools.get_customer_history. -/
def db_tools_get_customer_history (customer_id : Int) (st : DBState) : Json :=
  okEnvelope "tickets" (.arr ((db_get_customer_history customer_id st).map ticketToJson))

/-- Embedding of db_tools.customer_ticket_history, the alias of
db_tools.get_customer_history. -/
def db_tools_customer_ticket_history (customer_id : Int) (st : DBState) : Json :=
  db_tools_get_customer_history customer_id st

/-- Embedding of db_tools.list_open_tickets. -/
def db_tools_list_open_tickets (st : DBState) : Json :=
  okEnvelope "tickets" (.arr ((db_list_open_tickets st).map ticketToJson))

/-- Embedding of db_tools.open_tickets_for_customer. -/
def db_tools_open_tickets_for_customer (customer_id : Int) (st : DBState) : Json :=
  okEnvelope "tickets" (.arr ((db_tools_open_tickets_rows customer_id st).map ticketToJson))

/-- Embedding of db_tools.high_priority_tickets_for_customers. -/
def db_tools_high_priority_tickets_for_customers (customer_ids : Option (List Int))
    (st : DBState) : Json :=
  okEnvelope "tickets" (.arr ((db_tools_high_priority_rows customer_ids st).map ticketToJson))

/-- Embedding of db_tools.billing_context_for_customer. -/
def db_tools_billing_context_for_customer (customer_id : Int) (st : DBState) : Json :=
  okEnvelope "tickets" (.arr ((db_tools_billing_rows customer_id st).map ticketToJson))

/-- Embedding of db_tools.list_active_customers_with_open_tickets. -/
def db_tools_list_active_customers_with_open_tickets (st : DBState) : Json :=
  okEnvelope "customers" (.arr ((db_tools_lacwot_rows st).map customerToJson))

/-- Embedding of the legacy create_ticket tool of mcp_server.py: it calls
db.create_ticket directly and returns the raw row dict, not a Result
Envelope. -/
def mcp_create_ticket (customer_id : Int) (issue priority status : String) (now : Nat)
    (st : DBState) : DBState × Json :=
  let res := db_create_ticket customer_id issue priority status now st
  (res.1, ticketToJson res.2)

/-- Embedding of the list_active_customers_with_open_tickets tool of
mcp_server.py: it calls db.list_active_customers_with_open_tickets
directly and returns the raw list of row dicts, not a Result Envelope. -/
def mcp_list_active_customers_with_open_tickets (st : DBState) : Json :=
  .arr ((db_list_active_customers_with_open_tickets st).map customerToJson)

/-- Key list of a params object; non-objects have no keys. -/
def paramKeys (params : Json) : List String :=
  match params with
  | .obj fs => fs.map Prod.fst
  | _ => []

/-- Binding of a keyword-argument mapping against a Python signature:
a non-mapping cannot be unpacked with double-star, an unexpected keyword
or a missing required keyword raises TypeError; tool_map catches any such
fault and turns it into a server-error response. -/
def checkKwargs (accepted required : List String) (params : Json) : Option String :=
  match params with
  | .obj _ =>
    if !((paramKeys params).all (fun k => accepted.contains k)) then
      some "got an unexpected keyword argument"
    else if !(required.all (fun k => (paramKeys params).contains k)) then
      some "missing a required keyword argument"
    else none
  | _ => some "argument after double-star must be a mapping"

/-- Integer-valued parameter; the embedding types identifiers as
integers, so a present non-integer value fails the binding step. -/
def pInt (params : Json) (key : String) : Option Int :=
  match params.getField key with
  | some (.num n) => some n
  | _ => none

/-- String-valued parameter. -/
def pStr (params : Json) (key : String) : Option String :=
  match params.getField key with
  | some (.str s) => some s
  | _ => none

/-- String parameter with a default, where an explicit null is passed
through as None (used by the optional status of list_customers). -/
def pOptStr (params : Json) (key : String) : Option String :=
  match params.getField key with
  | some (.str s) => some s
  | _ => none

/-- Natural-number parameter with a Python-side default. -/
def pNatD (params : Json) (key : String) (dflt : Nat) : Nat :=
  match params.getField key with
  | some (.num n) => n.toNat
  | _ => dflt

/-- List-of-integers parameter, where null is passed through as None. -/
def pIntList (params : Json) (key : String) : Option (List Int) :=
  match params.getField key with
  | some (.arr xs) =>
    some (xs.filterMap (fun j => match j with | .num n => some n | _ => none))
  | _ => none

/-- Outcome of one tool invocation: possibly updated store and either the
result value or the message of the exception the dispatch caught. -/
def ToolOutcome := DBState × Except String Json

/-- The health_check entry: mcp_server calls db_tools.health_check, which
db_tools does not define, so the attribute lookup fails at call time and
the dispatcher reports the fault. -/
def tool_health_check (params : Json) (st : DBState) : ToolOutcome :=
  match checkKwargs [] [] params with
  | some e => (st, .error e)
  | none => (st, .error "module db_tools has no attribute health_check")

/-- The get_customer tool entry. -/
def tool_get_customer (params : Json) (st : DBState) : ToolOutcome :=
  match checkKwargs ["customer_id"] ["customer_id"] params with
  | some e => (st, .error e)
  | none =>
    match pInt params "customer_id" with
    | some cid => (st, .ok (db_tools_get_customer cid st))
    | none => (st, .error "customer_id must be an integer")

/-- The list_customers tool entry, with the Python defaults None and 10. -/
def tool_list_customers (params : Json) (st : DBState) : ToolOutcome :=
  match checkKwargs ["status", "limit"] [] params with
  | some e => (st, .error e)
  | none =>
    (st, .ok (db_tools_list_customers (pOptStr params "status") (pNatD params "limit" 10) st))

/-- The list_active_customers tool entry; the db_tools default limit is
100. -/
def tool_list_active_customers (params : Json) (st : DBState) : ToolOutcome :=
  match checkKwargs [] [] params with
  | some e => (st, .error e)
  | none => (st, .ok (db_tools_list_active_customers 100 st))

/-- The list_premium_customers tool entry; the db_tools default limit is
100. -/
def tool_list_premium_customers (params : Json) (st : DBState) : ToolOutcome :=
  match checkKwargs [] [] params with
  | some e => (st, .error e)
  | none => (st, .ok (db_tools_list_premium_customers 100 st))

/-- The open_tickets_for_customer tool entry. -/
def tool_open_tickets_for_customer (params : Json) (st : DBState) : ToolOutcome :=
  match checkKwargs ["customer_id"] ["customer_id"] params with
  | some e => (st, .error e)
  | none =>
    match pInt params "customer_id" with
    | some cid => (st, .ok (db_tools_open_tickets_for_customer cid st))
    | none => (st, .error "customer_id must be an integer")

/-- The high_priority_tickets_for_customers tool entry. -/
def tool_high_priority_tickets_for_customers (params : Json) (st : DBState) : ToolOutcome :=
  match checkKwargs ["customer_ids"] ["customer_ids"] params with
  | some e => (st, .error e)
  | none =>
    (st, .ok (db_tools_high_priority_tickets_for_customers (pIntList params "customer_ids") st))

/-- The billing_context_for_customer tool entry. -/
def tool_billing_context_for_customer (params : Json) (st : DBState) : ToolOutcome :=
  match checkKwargs ["customer_id"] ["customer_id"] params with
  | some e => (st, .error e)
  | none =>
    match pInt params "customer_id" with
    | some cid => (st, .ok (db_tools_billing_context_for_customer cid st))
    | none => (st, .error "customer_id must be an integer")

/-- The customer_ticket_history tool entry. -/
def tool_customer_ticket_history (params : Json) (st : DBState) : ToolOutcome :=
  match checkKwargs ["customer_id"] ["customer_id"] params with
  | some e => (st, .error e)
  | none =>
    match pInt params "customer_id" with
    | some cid => (st, .ok (db_tools_customer_ticket_history cid st))
    | none => (st, .error "customer_id must be an integer")

/-- The update_customer_email tool entry. -/
def tool_update_customer_email (now : Nat) (params : Json) (st : DBState) : ToolOutcome :=
  match checkKwargs ["customer_id", "new_email"] ["customer_id", "new_email"] params with
  | some e => (st, .error e)
  | none =>
    match pInt params "customer_id", pStr params "new_email" with
    | some cid, some em =>
      let res := db_tools_update_customer_email cid em now st
      (res.1, .ok res.2)
    | _, _ => (st, .error "customer_id must be an integer and new_email a string")

/-- The create_ticket tool entry, the legacy raw-row tool; db_path is an
accepted keyword but the embedding has a single store. -/
def tool_create_ticket (now : Nat) (params : Json) (st : DBState) : ToolOutcome :=
  match checkKwargs ["customer_id", "issue", "priority", "status", "db_path"]
      ["customer_id", "issue"] params with
  | some e => (st, .error e)
  | none =>
    match pInt params "customer_id", pStr params "issue" with
    | some cid, some issue =>
      let priority := (pStr params "priority").getD "medium"
      let status := (pStr params "status").getD "open"
      let res := mcp_create_ticket cid issue priority status now st
      (res.1, .ok res.2)
    | _, _ => (st, .error "customer_id must be an integer and issue a string")

/-- The dispatch table of _simple_stdio_server, in source order. Note the
entries it does not have: get_customer_history, list_open_tickets and
list_active_customers_with_open_tickets are absent. -/
def tool_map (now : Nat) : List (String × (Json → DBState → ToolOutcome)) :=
  [("health_check", tool_health_check),
   ("get_customer", tool_get_customer),
   ("list_customers", tool_list_customers),
   ("list_active_customers", tool_list_active_customers),
   ("list_premium_customers", tool_list_premium_customers),
   ("open_tickets_for_customer", tool_open_tickets_for_customer),
   ("high_priority_tickets_for_customers", tool_high_priority_tickets_for_customers),
   ("billing_context_for_customer", tool_billing_context_for_customer),
   ("customer_ticket_history", tool_customer_ticket_history),
   ("update_customer_email", tool_update_customer_email now),
   ("create_ticket", tool_create_ticket now)]

/-- Method names present in the dispatch table of _simple_stdio_server. -/
def toolNames : List String :=
  ["health_check", "get_customer", "list_customers", "list_active_customers",
   "list_premium_customers", "open_tickets_for_customer",
   "high_priority_tickets_for_customers", "billing_context_for_customer",
   "customer_ticket_history", "update_customer_email", "create_ticket"]

/-- Modelled from the spec: the method names of the external-interface
catalog table of the spec, which lists each RPC-visible operation with
its parameters and success payload key. -/
def specCatalogMethods : List String :=
  ["get_customer", "list_customers", "list_active_customers", "list_premium_customers",
   "update_customer_email", "create_ticket", "get_customer_history",
   "customer_ticket_history", "list_open_tickets", "open_tickets_for_customer",
   "high_priority_tickets_for_customers", "billing_context_for_customer",
   "list_active_customers_with_open_tickets"]

/-- JSON-RPC error response line, echoing the request identifier. -/
def jsonRpcError (reqId : Json) (code : Int) (message : String) : Json :=
  .obj [("jsonrpc", .str "2.0"), ("id", reqId),
        ("error", .obj [("code", .num code), ("message", .str message)])]

/-- JSON-RPC result response line, echoing the request identifier. -/
def jsonRpcResult (reqId : Json) (result : Json) : Json :=
  .obj [("jsonrpc", .str "2.0"), ("id", reqId), ("result", result)]

/-- Handling of one parsed request line by _simple_stdio_server: read the
method, identifier and params with dict.get (params falls back to the
empty mapping when absent or falsy), look the method up in the dispatch
table, and build exactly one response: the result on success, code -32000 on
a dispatch fault, code -32601 when the lookup fails. -/
def handleRequest (now : Nat) (st : DBState) (req : Json) : DBState × Json :=
  let reqId := (req.getField "id").getD .null
  let params :=
    match req.getField "params" with
    | none => Json.obj []
    | some v => if v.pyFalsy then Json.obj [] else v
  let entry :=
    match req.getField "method" with
    | some (.str m) => List.lookup m (tool_map now)
    | _ => none
  match entry with
  | none => (st, jsonRpcError reqId (-32601) "Method not found")
  | some f =>
    match f params st with
    | (st', .ok result) => (st', jsonRpcResult reqId result)
    | (st', .error msg) => (st', jsonRpcError reqId (-32000) msg)

/-- The server loop over an already line-split, already parsed input
stream: a none entry is a blank or malformed line and is skipped with no
response, every parsed line produces exactly one response line, and the
loop ends when the stream does. -/
def serverLoop (now : Nat) (st : DBState) : List (Option Json) → DBState × List Json
  | [] => (st, [])
  | none :: rest => serverLoop now st rest
  | some req :: rest =>
    let s := handleRequest now st req
    let r := serverLoop now s.1 rest
    (r.1, s.2 :: r.2)

/-- Comparison of a response identifier with the integer identifier the
client minted: Python equality of a JSON scalar with an int holds exactly
for that number. -/
def jsonIsNum (j : Option Json) (n : Int) : Bool :=
  match j with
  | some (.num m) => m == n
  | _ => false

/-- Message extraction of MCPProcessClient.call_tool on an error
response: the message field of the error object, with the fixed fallback
text when it is missing. -/
def errorMessageOf (e : Json) : Json :=
  match e with
  | .obj fs =>
    match List.lookup "message" fs with
    | some v => v
    | none => .str "Unknown MCP error"
  | _ => .str "Unknown MCP error"

/-- The read loop of MCPProcessClient.call_tool over the line-split
response stream: an exhausted stream is the fatal termination error, a
malformed line is skipped, a line whose identifier differs from the
awaited one is skipped, an error response raises with its message, and a
result response returns its result field. -/
def readLoop (req_id : Int) : List (Option Json) → Except Json Json
  | [] => .error (.str "MCP server terminated unexpectedly.")
  | none :: rest => readLoop req_id rest
  | some resp :: rest =>
    if jsonIsNum (resp.getField "id") req_id then
      match resp.getField "error" with
      | some e => .error (errorMessageOf e)
      | none => .ok ((resp.getField "result").getD .null)
    else readLoop req_id rest

/-- Envelope shape predicate: the value is an object carrying a boolean
success field. -/
def hasSuccessFlag (j : Json) : Prop := ∃ b, j.getField "success" = some (Json.bool b)

/-- Fixture customer with an open ticket. -/
def wCustomer1 : Customer :=
  { id := 1, name := "Ann Alpha", email := "ann@example.com", phone := "555-0001",
    status := "active", created_at := 10, updated_at := 10 }

/-- Fixture customer whose name matches the premium heuristic with the
exact capitalization of the seeded data. -/
def wCustomer2 : Customer :=
  { id := 2, name := "Pat Premium", email := "pat@example.com", phone := "555-0002",
    status := "active", created_at := 20, updated_at := 20 }

/-- Fixture open high-priority ticket of the first customer. -/
def wTicket1 : Ticket :=
  { id := 1, customer_id := 1, issue := "double charge", status := "open",
    priority := "high", created_at := 30 }

/-- Fixture store used by the concrete witnesses. -/
def wState : DBState := { customers := [wCustomer1, wCustomer2], tickets := [wTicket1], nextTicketId := 2 }

/-- Fixture customer whose name contains premium only in lower case. -/
def lowerCustomer : Customer :=
  { id := 7, name := "pat premium", email := "pp@example.com", phone := "555-0007",
    status := "active", created_at := 5, updated_at := 5 }

/-- Fixture store for the premium case-sensitivity counterexample. -/
def lowerState : DBState := { customers := [lowerCustomer], tickets := [], nextTicketId := 1 }

/-- Request naming get_customer_history, a method of the catalog table. -/
def reqHistory : Json :=
  .obj [("jsonrpc", .str "2.0"), ("id", .num 1), ("method", .str "get_customer_history"),
        ("params", .obj [("customer_id", .num 1)])]

/-- Request naming list_open_tickets, a method of the catalog table. -/
def reqOpenTickets : Json :=
  .obj [("jsonrpc", .str "2.0"), ("id", .num 2), ("method", .str "list_open_tickets"),
        ("params", .obj [])]

/-- Request naming list_active_customers_with_open_tickets, a method of
the catalog table. -/
def reqLacwot : Json :=
  .obj [("jsonrpc", .str "2.0"), ("id", .num 3),
        ("method", .str "list_active_customers_with_open_tickets"), ("params", .obj [])]

/-- Request naming a method outside the catalog. -/
def reqUnknown : Json :=
  .obj [("jsonrpc", .str "2.0"), ("id", .num 7), ("method", .str "does_not_exist"),
        ("params", .obj [])]

/-- Response line bearing identifier 2, simulating an earlier in-flight
call whose answer arrives first. -/
def respB : Json :=
  .obj [("jsonrpc", .str "2.0"), ("id", .num 2), ("result", .str "payload B")]

/-- Response line bearing identifier 1, the one the fixture client
awaits. -/
def respA : Json :=
  .obj [("jsonrpc", .str "2.0"), ("id", .num 1), ("result", .str "payload A")]

theorem getField_okEnvelope_success (key : String) (payload : Json) :
    (okEnvelope key payload).getField "success" = some (.bool true) := rfl

theorem getField_errEnvelope_success (msg : String) :
    (errEnvelope msg).getField "success" = some (.bool false) := rfl

theorem getField_errEnvelope_error (msg : String) :
    (errEnvelope msg).getField "error" = some (.str msg) := rfl

theorem db_get_customer_eq_none (cid : Int) (st : DBState)
    (h : ∀ c ∈ st.customers, c.id ≠ cid) : db_get_customer cid st = none := by
  unfold db_get_customer
  rw [List.find?_eq_none]
  intro c hc
  simp only [beq_iff_eq]
  exact h c hc

/-- Claim C4: for every customer identifier not present in the store,
get_customer returns an envelope with success false and an error message
string; it never raises (the embedding is a total function) and never
returns success true with a null customer payload, since the customer key
is absent altogether on the failure branch. -/
theorem claim_C4_get_customer_not_found (cid : Int) (st : DBState)
    (h : ∀ c ∈ st.customers, c.id ≠ cid) :
    (db_tools_get_customer cid st).getField "success" = some (.bool false) ∧
    (∃ msg, (db_tools_get_customer cid st).getField "error" = some (.str msg)) ∧
    (db_tools_get_customer cid st).getField "customer" = none := by
  have hn := db_get_customer_eq_none cid st h
  unfold db_tools_get_customer
  rw [hn]
  exact ⟨rfl, ⟨_, rfl⟩, rfl⟩

/-- Witness for claim C4 at identifier 99 on the fixture store. -/
theorem claim_C4_get_customer_not_found_witness :
    (∀ c ∈ wState.customers, c.id ≠ 99) ∧
    (db_tools_get_customer 99 wState).getField "success" = some (.bool false) := by
  have h : ∀ c ∈ wState.customers, c.id ≠ 99 := by decide
  exact ⟨h, (claim_C4_get_customer_not_found 99 wState h).1⟩

/-- Claim C9: list_customers treats the empty-string status argument the
same as no filter, because the equality filter is applied only when the
argument is truthy; with a large enough limit every stored customer is
returned regardless of status. -/
theorem claim_C9_empty_status_unfiltered (limit : Nat) (st : DBState) :
    db_list_customers (some "") limit st = db_list_customers none limit st ∧
    (st.customers.length ≤ limit → ∀ c ∈ st.customers, c ∈ db_list_customers (some "") limit st) := by
  constructor
  · rfl
  · intro hlen c hc
    show c ∈ (List.insertionSort createdDesc st.customers).take limit
    rw [List.take_of_length_le]
    · exact ((List.perm_insertionSort createdDesc st.customers).mem_iff).mpr hc
    · rw [(List.perm_insertionSort createdDesc st.customers).length_eq]
      exact hlen

/-- Witness for claim C9 on the fixture store with limit 10. -/
theorem claim_C9_empty_status_unfiltered_witness :
    wState.customers.length ≤ 10 ∧ wCustomer1 ∈ db_list_customers (some "") 10 wState :=
  ⟨by decide, (claim_C9_empty_status_unfiltered 10 wState).2 (by decide) wCustomer1 (by decide)⟩

/-- Claim C10: update_customer_email for an identifier not present in the
store reports success false with an error message, and the store is
entirely unchanged: the underlying update matches no rows and the re-read
returns no record. -/
theorem claim_C10_update_email_not_found (cid : Int) (new_email : String) (now : Nat)
    (st : DBState) (h : ∀ c ∈ st.customers, c.id ≠ cid) :
    db_update_customer cid [("email", new_email)] now st = (st, none) ∧
    (db_tools_update_customer_email cid new_email now st).1 = st ∧
    (db_tools_update_customer_email cid new_email now st).2.getField "success" =
      some (.bool false) ∧
    ∃ msg, (db_tools_update_customer_email cid new_email now st).2.getField "error" =
      some (.str msg) := by
  have hn := db_get_customer_eq_none cid st h
  have hmap : st.customers.map (fun c =>
      if c.id == cid then
        { [("email", new_email)].foldl setCustomerField c with updated_at := now }
      else c) = st.customers := by
    have hfix : ∀ c ∈ st.customers,
        (if c.id == cid then
          { [("email", new_email)].foldl setCustomerField c with updated_at := now }
        else c) = c := by
      intro c hc
      rw [if_neg]
      simp only [beq_iff_eq]
      exact h c hc
    rw [List.map_congr_left hfix]
    exact List.map_id' st.customers
  have h1 : db_update_customer cid [("email", new_email)] now st = (st, none) := by
    have hdef : db_update_customer cid [("email", new_email)] now st =
        ({ st with customers := st.customers.map (fun c =>
            if c.id == cid then
              { [("email", new_email)].foldl setCustomerField c with updated_at := now }
            else c) },
          db_get_customer cid
            { st with customers := st.customers.map (fun c =>
                if c.id == cid then
                  { [("email", new_email)].foldl setCustomerField c with updated_at := now }
                else c) }) := rfl
    rw [hdef, hmap]
    have heta : ({ st with customers := st.customers } : DBState) = st := rfl
    rw [heta, hn]
  have h2 : db_tools_update_customer_email cid new_email now st =
      (st, errEnvelope ("Customer " ++ toString cid ++ " not found or update failed.")) := by
    unfold db_tools_update_customer_email
    rw [h1]
  rw [h2]
  exact ⟨h1, rfl, rfl, ⟨_, rfl⟩⟩

/-- Witness for claim C10 at identifier 99 on the fixture store. -/
theorem claim_C10_update_email_not_found_witness :
    (∀ c ∈ wState.customers, c.id ≠ 99) ∧
    db_update_customer 99 [("email", "new@example.com")] 77 wState = (wState, none) := by
  have h : ∀ c ∈ wState.customers, c.id ≠ 99 := by decide
  exact ⟨h, (claim_C10_update_email_not_found 99 "new@example.com" 77 wState h).1⟩

theorem lookup_tool_map_eq_none (now : Nat) (m : String) (h : m ∉ toolNames) :
    List.lookup m (tool_map now) = none := by
  simp only [toolNames, List.mem_cons, List.not_mem_nil, or_false, not_or] at h
  obtain ⟨h1, h2, h3, h4, h5, h6, h7, h8, h9, h10, h11⟩ := h
  simp [tool_map, List.lookup, beq_eq_false_iff_ne.mpr h1, beq_eq_false_iff_ne.mpr h2,
    beq_eq_false_iff_ne.mpr h3, beq_eq_false_iff_ne.mpr h4, beq_eq_false_iff_ne.mpr h5,
    beq_eq_false_iff_ne.mpr h6, beq_eq_false_iff_ne.mpr h7, beq_eq_false_iff_ne.mpr h8,
    beq_eq_false_iff_ne.mpr h9, beq_eq_false_iff_ne.mpr h10, beq_eq_false_iff_ne.mpr h11]

/-- Claim C5: a well-formed request line whose method name is outside the
dispatch table produces exactly one error response, with code -32601 and
the identifier of the request, the store untouched, and the loop goes on
with the remaining lines. -/
theorem claim_C5_unknown_method (now : Nat) (st : DBState) (req : Json) (m : String)
    (idv : Json) (rest : List (Option Json))
    (hm : req.getField "method" = some (.str m))
    (hnot : m ∉ toolNames)
    (hid : req.getField "id" = some idv) :
    serverLoop now st (some req :: rest) =
      ((serverLoop now st rest).1,
        jsonRpcError idv (-32601) "Method not found" :: (serverLoop now st rest).2) := by
  have hhandle : handleRequest now st req = (st, jsonRpcError idv (-32601) "Method not found") := by
    unfold handleRequest
    rw [hm, hid]
    simp [lookup_tool_map_eq_none now m hnot]
  show (let s := handleRequest now st req
        let r := serverLoop now s.1 rest
        (r.1, s.2 :: r.2)) =
      ((serverLoop now st rest).1,
        jsonRpcError idv (-32601) "Method not found" :: (serverLoop now st rest).2)
  rw [hhandle]

/-- Witness for claim C5: the request naming does_not_exist, identifier
7, on the fixture store gets the single -32601 response. -/
theorem claim_C5_unknown_method_witness :
    reqUnknown.getField "method" = some (.str "does_not_exist") ∧
    "does_not_exist" ∉ toolNames ∧
    serverLoop 0 wState [some reqUnknown] =
      (wState, [jsonRpcError (.num 7) (-32601) "Method not found"]) := by
  refine ⟨rfl, by decide, ?_⟩
  have h := claim_C5_unknown_method 0 wState reqUnknown "does_not_exist" (.num 7) []
    rfl (by decide) rfl
  simpa [serverLoop] using h

/-- Claim C1 is violated by the code: three method names of the catalog
table — get_customer_history, list_open_tickets and
list_active_customers_with_open_tickets — are absent from the dispatch
table of the stdio transport, so a request naming any of them receives
the method-not-found error -32601 instead of a result response. -/
theorem claim_C1_catalog_methods_not_dispatched :
    ("get_customer_history" ∈ specCatalogMethods ∧ "get_customer_history" ∉ toolNames ∧
      serverLoop 0 wState [some reqHistory] =
        (wState, [jsonRpcError (.num 1) (-32601) "Method not found"])) ∧
    ("list_open_tickets" ∈ specCatalogMethods ∧ "list_open_tickets" ∉ toolNames ∧
      serverLoop 0 wState [some reqOpenTickets] =
        (wState, [jsonRpcError (.num 2) (-32601) "Method not found"])) ∧
    ("list_active_customers_with_open_tickets" ∈ specCatalogMethods ∧
      "list_active_customers_with_open_tickets" ∉ toolNames ∧
      serverLoop 0 wState [some reqLacwot] =
        (wState, [jsonRpcError (.num 3) (-32601) "Method not found"])) :=
  ⟨⟨by decide, by decide, rfl⟩, ⟨by decide, by decide, rfl⟩, ⟨by decide, by decide, rfl⟩⟩

/-- Claim C8: the client read loop skips every line whose identifier
differs from the awaited one, so even when other responses arrive first
the call returns the payload of the awaited identifier. -/
theorem claim_C8_correlation (req_id : Int) (pre rest : List (Option Json)) (respX v : Json)
    (hpre : ∀ l ∈ pre, ∀ j, l = some j → jsonIsNum (j.getField "id") req_id = false)
    (hA : jsonIsNum (respX.getField "id") req_id = true)
    (herr : respX.getField "error" = none)
    (hres : respX.getField "result" = some v) :
    readLoop req_id (pre ++ some respX :: rest) = .ok v := by
  induction pre with
  | nil =>
    show readLoop req_id (some respX :: rest) = .ok v
    unfold readLoop
    rw [hA]
    simp [herr, hres]
  | cons l pre ih =>
    have hrest : ∀ l' ∈ pre, ∀ j, l' = some j → jsonIsNum (j.getField "id") req_id = false :=
      fun l' hl' => hpre l' (List.mem_cons_of_mem _ hl')
    cases l with
    | none =>
      show readLoop req_id (none :: (pre ++ some respX :: rest)) = .ok v
      exact ih hrest
    | some j =>
      have hj := hpre (some j) (List.mem_cons_self _ _) j rfl
      have hstep : readLoop req_id (some j :: (pre ++ some respX :: rest)) =
          if jsonIsNum (j.getField "id") req_id = true then
            (match j.getField "error" with
             | some e => Except.error (errorMessageOf e)
             | none => Except.ok ((j.getField "result").getD Json.null))
          else readLoop req_id (pre ++ some respX :: rest) := rfl
      rw [List.cons_append, hstep, hj]
      simp only [Bool.false_eq_true, if_false]
      exact ih hrest

/-- Witness for claim C8: responses for identifiers 2 and 1 arrive in
that order while the client awaits 1, and the call returns payload A. -/
theorem claim_C8_correlation_witness :
    readLoop 1 [some respB, some respA] = .ok (.str "payload A") := by
  have hpre : ∀ l ∈ [some respB], ∀ j, l = some j → jsonIsNum (j.getField "id") 1 = false := by
    intro l hl j hj
    simp only [List.mem_singleton] at hl
    subst hl
    injection hj with hj
    subst hj
    rfl
  exact claim_C8_correlation 1 [some respB] [] respA (.str "payload A") hpre rfl rfl rfl

/-- Counterexample to claim C2: the transport-level create_ticket tool
returns the raw ticket row with neither a success flag nor a ticket key,
and the transport-level list_active_customers_with_open_tickets tool
returns a raw array with no fields at all. -/
theorem claim_C2_result_envelope_counterexample :
    (mcp_create_ticket 1 "printer smoking" "high" "open" 40 wState).2.getField "success" = none ∧
    (mcp_create_ticket 1 "printer smoking" "high" "open" 40 wState).2.getField "ticket" = none ∧
    (mcp_list_active_customers_with_open_tickets wState).getField "success" = none ∧
    (mcp_list_active_customers_with_open_tickets wState).getField "customers" = none :=
  ⟨rfl, rfl, rfl, rfl⟩

/-- Amended claim C2: every db_tools catalog operation returns a Result
Envelope with a boolean success flag, with the create_ticket payload
under the key ticket and the customers-with-open-tickets payload under
the key customers; the transport-level create_ticket and
list_active_customers_with_open_tickets tools, however, bypass db_tools
and return the raw record or raw list without any envelope. -/
theorem claim_C2_result_envelope_amended (st : DBState) (now : Nat) (cid : Int)
    (issue priority status em : String) (stQ : Option String) (limit : Nat)
    (ids : Option (List Int)) :
    hasSuccessFlag (db_tools_get_customer cid st) ∧
    hasSuccessFlag (db_tools_list_customers stQ limit st) ∧
    hasSuccessFlag (db_tools_list_active_customers limit st) ∧
    hasSuccessFlag (db_tools_list_premium_customers limit st) ∧
    hasSuccessFlag ((db_tools_update_customer_email cid em now st).2) ∧
    hasSuccessFlag ((db_tools_create_ticket cid issue priority status now st).2) ∧
    hasSuccessFlag (db_tools_get_customer_history cid st) ∧
    hasSuccessFlag (db_tools_customer_ticket_history cid st) ∧
    hasSuccessFlag (db_tools_list_open_tickets st) ∧
    hasSuccessFlag (db_tools_open_tickets_for_customer cid st) ∧
    hasSuccessFlag (db_tools_high_priority_tickets_for_customers ids st) ∧
    hasSuccessFlag (db_tools_billing_context_for_customer cid st) ∧
    hasSuccessFlag (db_tools_list_active_customers_with_open_tickets st) ∧
    (db_tools_create_ticket cid issue priority status now st).2.getField "success" =
      some (.bool true) ∧
    (db_tools_create_ticket cid issue priority status now st).2.getField "ticket" =
      some (ticketToJson (db_create_ticket cid issue priority status now st).2) ∧
    (db_tools_list_active_customers_with_open_tickets st).getField "customers" =
      some (.arr ((db_tools_lacwot_rows st).map customerToJson)) ∧
    (mcp_create_ticket cid issue priority status now st).2.getField "success" = none ∧
    (mcp_list_active_customers_with_open_tickets st).getField "success" = none := by
  have hgc : hasSuccessFlag (db_tools_get_customer cid st) := by
    unfold db_tools_get_customer
    cases db_get_customer cid st with
    | none => exact ⟨false, rfl⟩
    | some c => exact ⟨true, rfl⟩
  have hup : hasSuccessFlag ((db_tools_update_customer_email cid em now st).2) := by
    unfold db_tools_update_customer_email
    rcases hdb : db_update_customer cid [("email", em)] now st with ⟨st', r⟩
    cases r with
    | none => exact ⟨false, rfl⟩
    | some c => exact ⟨true, rfl⟩
  exact ⟨hgc, ⟨true, rfl⟩, ⟨true, rfl⟩, ⟨true, rfl⟩, hup, ⟨true, rfl⟩, ⟨true, rfl⟩,
    ⟨true, rfl⟩, ⟨true, rfl⟩, ⟨true, rfl⟩, ⟨true, rfl⟩, ⟨true, rfl⟩, ⟨true, rfl⟩,
    rfl, rfl, rfl, rfl, rfl⟩

/-- Counterexample to claim C6: the LIKE pattern of
db_tools.list_premium_customers matches ASCII characters
case-insensitively, so a customer whose name contains premium only in
lower case is returned although the capitalized string Premium does not
occur in the name. -/
theorem claim_C6_premium_case_counterexample :
    lowerCustomer ∈ db_tools_list_premium_rows lowerState 100 ∧
    occursExact "Premium" lowerCustomer.name = false :=
  ⟨by decide, by decide⟩

/-- Amended claim C6: a stored customer is returned by
list_premium_customers if and only if the name contains the substring
Premium compared ASCII-case-insensitively (the SQLite LIKE default),
provided the matching customers fit in the limit; the result is ordered
by customer identifier ascending. -/
theorem claim_C6_premium_like_amended (st : DBState) (limit : Nat) (c : Customer)
    (hlen : (st.customers.filter (fun x => likeContains "Premium" x.name)).length ≤ limit) :
    (c ∈ db_tools_list_premium_rows st limit ↔
      c ∈ st.customers ∧ likeContains "Premium" c.name = true) ∧
    List.Sorted idAsc (db_tools_list_premium_rows st limit) := by
  constructor
  · unfold db_tools_list_premium_rows
    rw [List.take_of_length_le]
    · rw [(List.perm_insertionSort idAsc _).mem_iff, List.mem_filter]
    · rw [(List.perm_insertionSort idAsc _).length_eq]
      exact hlen
  · unfold db_tools_list_premium_rows
    exact List.Pairwise.sublist (List.take_sublist _ _) (List.sorted_insertionSort idAsc _)

/-- Witness for amended claim C6 on the fixture store. -/
theorem claim_C6_premium_like_amended_witness :
    (wState.customers.filter (fun x => likeContains "Premium" x.name)).length ≤ 100 ∧
    (wCustomer2 ∈ db_tools_list_premium_rows wState 100 ↔
      wCustomer2 ∈ wState.customers ∧ likeContains "Premium" wCustomer2.name = true) := by
  have h : (wState.customers.filter (fun x => likeContains "Premium" x.name)).length ≤ 100 := by
    decide
  exact ⟨h, (claim_C6_premium_like_amended wState 100 wCustomer2 h).1⟩

theorem mem_innerJoin {cs : List Customer} {ts : List Ticket}
    {onCond : Customer → Ticket → Bool} {c : Customer} {t : Ticket} :
    (c, t) ∈ innerJoin cs ts onCond ↔ c ∈ cs ∧ t ∈ ts ∧ onCond c t = true := by
  unfold innerJoin
  rw [List.mem_flatMap]
  constructor
  · rintro ⟨c', hc', hmem⟩
    rw [List.mem_map] at hmem
    obtain ⟨t', ht', heq⟩ := hmem
    have h1 : c' = c := congrArg Prod.fst heq
    have h2 : t' = t := congrArg Prod.snd heq
    subst h1
    subst h2
    rw [List.mem_filter] at ht'
    exact ⟨hc', ht'.1, ht'.2⟩
  · rintro ⟨hc, ht, hcond⟩
    exact ⟨c, hc, List.mem_map.mpr ⟨t, List.mem_filter.mpr ⟨ht, hcond⟩, rfl⟩⟩

theorem innerJoin_on_comm (cs : List Customer) (ts : List Ticket) :
    innerJoin cs ts (fun c t => t.customer_id == c.id) =
      innerJoin cs ts (fun c t => c.id == t.customer_id) := by
  unfold innerJoin
  refine congrArg (List.flatMap cs) ?_
  funext c
  refine congrArg _ ?_
  apply List.filter_congr
  intro t _
  show (t.customer_id == c.id) = (c.id == t.customer_id)
  by_cases h : t.customer_id = c.id
  · rw [beq_iff_eq.mpr h, beq_iff_eq.mpr h.symm]
  · rw [beq_eq_false_iff_ne.mpr h, beq_eq_false_iff_ne.mpr (fun hh => h hh.symm)]

theorem mem_lacwot (st : DBState) (c : Customer) :
    c ∈ db_list_active_customers_with_open_tickets st ↔
      c ∈ st.customers ∧ c.status = "active" ∧
        ∃ t ∈ st.tickets, t.customer_id = c.id ∧ t.status ≠ "resolved" := by
  unfold db_list_active_customers_with_open_tickets
  rw [(List.perm_insertionSort idAsc _).mem_iff, List.mem_dedup, List.mem_map]
  constructor
  · rintro ⟨⟨c', t⟩, hp, rfl⟩
    rw [List.mem_filter] at hp
    obtain ⟨hj, hcond⟩ := hp
    rw [mem_innerJoin] at hj
    obtain ⟨hc, ht, hon⟩ := hj
    simp only [Bool.and_eq_true, beq_iff_eq, Bool.not_eq_true', beq_eq_false_iff_ne] at hcond
    rw [beq_iff_eq] at hon
    exact ⟨hc, hcond.1, t, ht, hon.symm, hcond.2⟩
  · rintro ⟨hc, hact, t, ht, hcid, hres⟩
    refine ⟨(c, t), List.mem_filter.mpr ⟨mem_innerJoin.mpr ⟨hc, ht, ?_⟩, ?_⟩, rfl⟩
    · rw [beq_iff_eq]
      exact hcid.symm
    · simp only [Bool.and_eq_true, beq_iff_eq, Bool.not_eq_true', beq_eq_false_iff_ne]
      exact ⟨hact, hres⟩

/-- Claim C3: the customers-with-open-tickets join returns a customer if
and only if it is stored, active, and owns at least one non-resolved
ticket; the result has no duplicate customers and is ordered by customer
identifier ascending; and the db_tools query computes the same rows as
the db one, their join conditions being mirror images. -/
theorem claim_C3_join_correctness (st : DBState) :
    (∀ c, c ∈ db_list_active_customers_with_open_tickets st ↔
      c ∈ st.customers ∧ c.status = "active" ∧
        ∃ t ∈ st.tickets, t.customer_id = c.id ∧ t.status ≠ "resolved") ∧
    (db_list_active_customers_with_open_tickets st).Nodup ∧
    List.Sorted idAsc (db_list_active_customers_with_open_tickets st) ∧
    db_tools_lacwot_rows st = db_list_active_customers_with_open_tickets st := by
  refine ⟨fun c => mem_lacwot st c, ?_, ?_, ?_⟩
  · unfold db_list_active_customers_with_open_tickets
    exact ((List.perm_insertionSort idAsc _).nodup_iff).mpr (List.nodup_dedup _)
  · unfold db_list_active_customers_with_open_tickets
    exact List.sorted_insertionSort idAsc _
  · unfold db_tools_lacwot_rows db_list_active_customers_with_open_tickets
    rw [innerJoin_on_comm]

theorem foldl_setCustomerField_id (updates : List (String × String)) (c : Customer) :
    (updates.foldl setCustomerField c).id = c.id := by
  induction updates generalizing c with
  | nil => rfl
  | cons kv rest ih =>
    rw [List.foldl_cons, ih]
    unfold setCustomerField
    split_ifs <;> rfl

theorem foldl_setCustomerField_created (updates : List (String × String)) (c : Customer) :
    (updates.foldl setCustomerField c).created_at = c.created_at := by
  induction updates generalizing c with
  | nil => rfl
  | cons kv rest ih =>
    rw [List.foldl_cons, ih]
    unfold setCustomerField
    split_ifs <;> rfl

theorem foldl_setCustomerField_name (updates : List (String × String)) (c : Customer)
    (h : ∀ kv ∈ updates, kv.1 ≠ "name") :
    (updates.foldl setCustomerField c).name = c.name := by
  induction updates generalizing c with
  | nil => rfl
  | cons kv rest ih =>
    rw [List.foldl_cons, ih _ (fun x hx => h x (List.mem_cons_of_mem _ hx))]
    have hk : kv.1 ≠ "name" := h kv (List.mem_cons_self _ _)
    unfold setCustomerField
    split_ifs <;> first | rfl | exact absurd (beq_iff_eq.mp (by assumption)) hk

theorem foldl_setCustomerField_email (updates : List (String × String)) (c : Customer)
    (h : ∀ kv ∈ updates, kv.1 ≠ "email") :
    (updates.foldl setCustomerField c).email = c.email := by
  induction updates generalizing c with
  | nil => rfl
  | cons kv rest ih =>
    rw [List.foldl_cons, ih _ (fun x hx => h x (List.mem_cons_of_mem _ hx))]
    have hk : kv.1 ≠ "email" := h kv (List.mem_cons_self _ _)
    unfold setCustomerField
    split_ifs <;> first | rfl | exact absurd (beq_iff_eq.mp (by assumption)) hk

theorem foldl_setCustomerField_phone (updates : List (String × String)) (c : Customer)
    (h : ∀ kv ∈ updates, kv.1 ≠ "phone") :
    (updates.foldl setCustomerField c).phone = c.phone := by
  induction updates generalizing c with
  | nil => rfl
  | cons kv rest ih =>
    rw [List.foldl_cons, ih _ (fun x hx => h x (List.mem_cons_of_mem _ hx))]
    have hk : kv.1 ≠ "phone" := h kv (List.mem_cons_self _ _)
    unfold setCustomerField
    split_ifs <;> first | rfl | exact absurd (beq_iff_eq.mp (by assumption)) hk

theorem foldl_setCustomerField_status (updates : List (String × String)) (c : Customer)
    (h : ∀ kv ∈ updates, kv.1 ≠ "status") :
    (updates.foldl setCustomerField c).status = c.status := by
  induction updates generalizing c with
  | nil => rfl
  | cons kv rest ih =>
    rw [List.foldl_cons, ih _ (fun x hx => h x (List.mem_cons_of_mem _ hx))]
    have hk : kv.1 ≠ "status" := h kv (List.mem_cons_self _ _)
    unfold setCustomerField
    split_ifs <;> first | rfl | exact absurd (beq_iff_eq.mp (by assumption)) hk

theorem forall₂_map_self {α : Type} (R : α → α → Prop) (f : α → α) (l : List α)
    (h : ∀ a ∈ l, R a (f a)) : List.Forall₂ R l (l.map f) := by
  induction l with
  | nil => exact List.Forall₂.nil
  | cons a rest ih =>
    exact List.Forall₂.cons (h a (List.mem_cons_self _ _))
      (ih (fun x hx => h x (List.mem_cons_of_mem _ hx)))

theorem mem_keys_of_mem_filter_update {data : List (String × String)}
    {kv : String × String} {k : String}
    (hkv : kv ∈ data.filter (fun kv => valid_fields.contains kv.1))
    (hk : k ∉ data.map Prod.fst) : kv.1 ≠ k := by
  intro heq
  exact hk (heq ▸ List.mem_map_of_mem Prod.fst (List.mem_of_mem_filter hkv))

/-- Claim C7: update_customer changes only the whitelisted fields plus
the update timestamp: tickets, the ticket counter, every record with a
different identifier, and the identifier and creation timestamp of the
matching record are untouched; a field whose key is not in the supplied
mapping is untouched; and when the mapping contains no whitelisted field
the call returns the current record with the store unchanged, so the
update time is not stamped. -/
theorem claim_C7_update_frame (cid : Int) (data : List (String × String)) (now : Nat)
    (st : DBState) :
    (db_update_customer cid data now st).1.tickets = st.tickets ∧
    (db_update_customer cid data now st).1.nextTicketId = st.nextTicketId ∧
    List.Forall₂ (fun c₀ c : Customer =>
      c.id = c₀.id ∧ c.created_at = c₀.created_at ∧
      (c₀.id ≠ cid → c = c₀) ∧
      ("name" ∉ data.map Prod.fst → c.name = c₀.name) ∧
      ("email" ∉ data.map Prod.fst → c.email = c₀.email) ∧
      ("phone" ∉ data.map Prod.fst → c.phone = c₀.phone) ∧
      ("status" ∉ data.map Prod.fst → c.status = c₀.status))
      st.customers (db_update_customer cid data now st).1.customers ∧
    ((∀ kv ∈ data, valid_fields.contains kv.1 = false) →
      db_update_customer cid data now st = (st, db_get_customer cid st)) := by
  have hrefl : List.Forall₂ (fun c₀ c : Customer =>
      c.id = c₀.id ∧ c.created_at = c₀.created_at ∧
      (c₀.id ≠ cid → c = c₀) ∧
      ("name" ∉ data.map Prod.fst → c.name = c₀.name) ∧
      ("email" ∉ data.map Prod.fst → c.email = c₀.email) ∧
      ("phone" ∉ data.map Prod.fst → c.phone = c₀.phone) ∧
      ("status" ∉ data.map Prod.fst → c.status = c₀.status))
      st.customers st.customers :=
    List.forall₂_same.mpr (fun c _ =>
      ⟨rfl, rfl, fun _ => rfl, fun _ => rfl, fun _ => rfl, fun _ => rfl, fun _ => rfl⟩)
  simp only [db_update_customer]
  split_ifs with h1 h2
  · exact ⟨rfl, rfl, hrefl, fun _ => rfl⟩
  · exact ⟨rfl, rfl, hrefl, fun _ => rfl⟩
  · refine ⟨rfl, rfl, ?_, ?_⟩
    · apply forall₂_map_self
      intro c hc
      by_cases hcid : (c.id == cid) = true
      · rw [if_pos hcid]
        refine ⟨foldl_setCustomerField_id _ c, foldl_setCustomerField_created _ c,
          fun h' => absurd (beq_iff_eq.mp hcid) h', ?_, ?_, ?_, ?_⟩
        · intro hk
          exact foldl_setCustomerField_name _ c
            (fun kv hkv => mem_keys_of_mem_filter_update hkv hk)
        · intro hk
          exact foldl_setCustomerField_email _ c
            (fun kv hkv => mem_keys_of_mem_filter_update hkv hk)
        · intro hk
          exact foldl_setCustomerField_phone _ c
            (fun kv hkv => mem_keys_of_mem_filter_update hkv hk)
        · intro hk
          exact foldl_setCustomerField_status _ c
            (fun kv hkv => mem_keys_of_mem_filter_update hkv hk)
      · rw [if_neg hcid]
        exact ⟨rfl, rfl, fun _ => rfl, fun _ => rfl, fun _ => rfl, fun _ => rfl, fun _ => rfl⟩
    · intro hall
      exfalso
      apply h2
      rw [List.isEmpty_iff, List.filter_eq_nil_iff]
      intro kv hkv
      rw [hall kv hkv]
      exact Bool.false_ne_true

/-- Witness for claim C7: a mapping containing only a non-whitelisted key
leaves the fixture store unchanged and returns the current record. -/
theorem claim_C7_update_frame_witness :
    (∀ kv ∈ ([("tier", "gold")] : List (String × String)), valid_fields.contains kv.1 = false) ∧
    db_update_customer 1 [("tier", "gold")] 5 wState = (wState, db_get_customer 1 wState) := by
  have h : ∀ kv ∈ ([("tier", "gold")] : List (String × String)),
      valid_fields.contains kv.1 = false := by decide
  exact ⟨h, (claim_C7_update_frame 1 [("tier", "gold")] 5 wState).2.2.2 h⟩
